import Mathlib

/-!
Shallow embedding of the `mail2mp3` program (files `getyotubeid.py` and
`mail2mp3.py`) and verification of specification claims about it.

Strings are embedded as `List Char`.  Python regular expressions are embedded
as direct scanners that implement the exact matching behaviour of the concrete
patterns occurring in the source (all of them are literal pieces, fixed-length
character classes, or greedy digit runs, so their `findall` semantics is
deterministic and is implemented by left-to-right scans with non-overlapping
continuation).  Python `\w`, `\d` and `\s` are modelled over ASCII, which is
the alphabet exercised by every statement below.
-/

/-- ASCII lower-casing, modelling the effect of a case-insensitive match. -/
def lowerChar (c : Char) : Char :=
  if 'A' ≤ c ∧ c ≤ 'Z' then Char.ofNat (c.toNat + 32) else c

/-- Membership of the character class `[^#\&\?]` used by every ID pattern. -/
def idChar (c : Char) : Bool :=
  !(c == '#' || c == '&' || c == '?')

/-- Python `\s` over ASCII. -/
def isPySpace (c : Char) : Bool :=
  c == ' ' || c == '\t' || c == '\n' || c == '\r' || c == '\x0b' || c == '\x0c'

/-- Membership of the split class `[\/\&\?=#\.\s]` of the fuzzy pattern. -/
def isDelim (c : Char) : Bool :=
  c == '/' || c == '&' || c == '?' || c == '=' || c == '#' || c == '.' || isPySpace c

/-- Whether `pat` occurs as a contiguous substring of the second argument.
`base_pattern.findall(text)` is non-empty exactly when one of the two literal
alternatives of `youtu\.?be` occurs as a substring. -/
def containsSub (pat : List Char) : List Char → Bool
  | [] => pat.isEmpty
  | c :: rest => pat.isPrefixOf (c :: rest) || containsSub pat rest

/-- The guard `len(base_pattern.findall(text)) > 0` of `get_youtube_id`:
the regex `youtu\.?be` matches exactly the substrings `youtube` and
`youtu.be`. -/
def hasYtToken (t : List Char) : Bool :=
  containsSub (("youtube" : String)).data t || containsSub (("youtu.be" : String)).data t

/-- One step of `pattern.findall` for a pattern of the shape
`lit([^#\&\?]{11})`: scan left to right; on a match capture the eleven
class characters and continue after the end of the whole match
(non-overlapping matches, as in Python); otherwise advance one position.
The `Nat` argument is fuel, always instantiated with the length of the
scanned list (each step consumes at least one character, so this fuel is
sufficient); it only makes the recursion structural. -/
def findCapturesF (lit : List Char) : Nat → List Char → List (List Char)
  | 0, _ => []
  | _, [] => []
  | Nat.succ fuel, c :: rest =>
    if lit.isPrefixOf (c :: rest) then
      let after := (c :: rest).drop lit.length
      let cand := after.take 11
      if cand.length = 11 ∧ cand.all idChar = true then
        cand :: findCapturesF lit fuel (after.drop 11)
      else
        findCapturesF lit fuel rest
    else
      findCapturesF lit fuel rest

/-- `re.findall` for a pattern `lit([^#\&\?]{11})`, returning the captures. -/
def findCaptures (lit : List Char) (l : List Char) : List (List Char) :=
  findCapturesF lit l.length l

/-- The ordered structural patterns of `get_youtube_id`, as their literal
anchors: `youtu\.be\/`, `\?v=`, `\&v=`, `embed\/`, `\/v\/`, each followed by
the capture `([^#\&\?]{11})`.  The captures of all patterns are appended in
pattern order, each in text order, exactly as the double loop in the source
builds `results`. -/
def structMatches (t : List Char) : List (List Char) :=
  findCaptures (("youtu.be/" : String)).data t ++
  findCaptures (("?v=" : String)).data t ++
  findCaptures (("&v=" : String)).data t ++
  findCaptures (("embed/" : String)).data t ++
  findCaptures (("/v/" : String)).data t

/-- `re.split` on a single-character class: the delimiter occurrences are
removed and the (possibly empty) pieces between them are returned. -/
def pySplit (p : Char → Bool) : List Char → List (List Char)
  | [] => [[]]
  | c :: rest =>
    if p c then [] :: pySplit p rest
    else
      match pySplit p rest with
      | [] => [[c]]
      | piece :: pieces => (c :: piece) :: pieces

/-- The fuzzy phase of `get_youtube_id`: split the text by
`[\/\&\?=#\.\s]` and keep every piece matched by `^[^#\&\?]{11}$`.
(The pieces contain no newline, because `\s` is among the delimiters, so the
dollar anchor is an exact end-of-piece anchor here.) -/
def fuzzyMatches (t : List Char) : List (List Char) :=
  (pySplit isDelim t).filter (fun piece => piece.length = 11 && piece.all idChar)

/-- De-duplication modelling `tuple(set(results))`.  Python iterates a hash
set in an unspecified order; the embedding fixes one concrete duplicate-free
list with the same elements (claims about the all-matches result are stated
at the level of membership, never of order). -/
def pyDedup : List (List Char) → List (List Char)
  | [] => []
  | x :: xs => if x ∈ xs then pyDedup xs else x :: pyDedup xs

/-- The possible Python return values of `get_youtube_id`:
a single string, a tuple of strings, or `None`. -/
inductive PyResult where
  | str (s : List Char)
  | tup (ss : List (List Char))
  | pynone
deriving DecidableEq

/-- `get_youtube_id(text, first_match, fuzzy)` from `getyotubeid.py`. -/
def getYoutubeId (text : List Char) (first_match fuzzy : Bool) : PyResult :=
  if hasYtToken text then
    let results := structMatches text ++ (if fuzzy then fuzzyMatches text else [])
    match results with
    | [] => PyResult.pynone
    | r :: _ => if first_match then PyResult.str r else PyResult.tup (pyDedup results)
  else
    PyResult.pynone

/-! Helper lemmas about the Pattern Resolver. -/

theorem mem_findCapturesF {lit : List Char} :
    ∀ (fuel : Nat) (l s : List Char), s ∈ findCapturesF lit fuel l →
      s.length = 11 ∧ s.all idChar = true := by
  intro fuel
  induction fuel with
  | zero => intro l s h; simp [findCapturesF] at h
  | succ n ih =>
    intro l s h
    cases l with
    | nil => simp [findCapturesF] at h
    | cons c rest =>
      simp only [findCapturesF] at h
      by_cases hp : lit.isPrefixOf (c :: rest) = true
      · rw [if_pos hp] at h
        by_cases hg : (((c :: rest).drop lit.length).take 11).length = 11 ∧
            (((c :: rest).drop lit.length).take 11).all idChar = true
        · rw [if_pos hg] at h
          rcases List.mem_cons.mp h with h1 | h1
          · subst h1; exact hg
          · exact ih _ _ h1
        · rw [if_neg hg] at h
          exact ih _ _ h
      · rw [if_neg hp] at h
        exact ih _ _ h

theorem mem_findCaptures {lit t s : List Char} (h : s ∈ findCaptures lit t) :
    s.length = 11 ∧ s.all idChar = true :=
  mem_findCapturesF _ _ _ h

theorem mem_structMatches {t s : List Char} (h : s ∈ structMatches t) :
    s.length = 11 ∧ s.all idChar = true := by
  unfold structMatches at h
  rcases List.mem_append.mp h with h | h
  swap
  · exact mem_findCaptures h
  rcases List.mem_append.mp h with h | h
  swap
  · exact mem_findCaptures h
  rcases List.mem_append.mp h with h | h
  swap
  · exact mem_findCaptures h
  rcases List.mem_append.mp h with h | h
  · exact mem_findCaptures h
  · exact mem_findCaptures h

theorem mem_fuzzyMatches {t s : List Char} (h : s ∈ fuzzyMatches t) :
    s.length = 11 ∧ s.all idChar = true := by
  unfold fuzzyMatches at h
  have := (List.mem_filter.mp h).2
  simp only [Bool.and_eq_true, decide_eq_true_eq] at this
  exact this

theorem mem_pyDedup {l : List (List Char)} {x : List Char} :
    x ∈ pyDedup l ↔ x ∈ l := by
  induction l with
  | nil => simp [pyDedup]
  | cons a as ih =>
    by_cases ha : a ∈ as
    · simp only [pyDedup, if_pos ha, ih, List.mem_cons]
      constructor
      · exact Or.inr
      · rintro (rfl | h)
        · exact ha
        · exact h
    · simp [pyDedup, if_neg ha, ih]

theorem nodup_pyDedup (l : List (List Char)) : (pyDedup l).Nodup := by
  induction l with
  | nil => simp [pyDedup]
  | cons a as ih =>
    by_cases ha : a ∈ as
    · simpa [pyDedup, if_pos ha] using ih
    · simp only [pyDedup, if_neg ha]
      exact List.Nodup.cons (fun hmem => ha (mem_pyDedup.mp hmem)) ih

/-- Every identifier in a non-`None` result of `get_youtube_id` has length 11
and avoids the characters `#`, `&`, `?`. -/
theorem getYoutubeId_str_inv {t s : List Char} {fm fz : Bool}
    (h : getYoutubeId t fm fz = PyResult.str s) :
    s.length = 11 ∧ s.all idChar = true := by
  unfold getYoutubeId at h
  by_cases hb : hasYtToken t
  · rw [if_pos hb] at h
    rcases hr : structMatches t ++ (if fz then fuzzyMatches t else []) with _ | ⟨r, rest⟩
    · rw [hr] at h; simp at h
    · rw [hr] at h
      by_cases hfm : fm = true
      · subst hfm
        simp only [if_true] at h
        cases h
        have hmem : s ∈ structMatches t ++ (if fz then fuzzyMatches t else []) := by
          rw [hr]; exact List.mem_cons_self _ _
        rcases List.mem_append.mp hmem with hm | hm
        · exact mem_structMatches hm
        · rcases fz with _ | _
          · simp at hm
          · exact mem_fuzzyMatches (by simpa using hm)
      · rw [Bool.not_eq_true] at hfm
        subst hfm
        simp at h
  · rw [if_neg hb] at h
    exact absurd h (by simp)

theorem getYoutubeId_tup_inv {t s : List Char} {ids : List (List Char)} {fm fz : Bool}
    (h : getYoutubeId t fm fz = PyResult.tup ids) (hs : s ∈ ids) :
    s.length = 11 ∧ s.all idChar = true := by
  unfold getYoutubeId at h
  by_cases hb : hasYtToken t
  · rw [if_pos hb] at h
    rcases hr : structMatches t ++ (if fz then fuzzyMatches t else []) with _ | ⟨r, rest⟩
    · rw [hr] at h; simp at h
    · rw [hr] at h
      rcases fm with _ | _
      · simp only [Bool.false_eq_true, if_false, PyResult.tup.injEq] at h
        subst h
        have hmem : s ∈ structMatches t ++ (if fz then fuzzyMatches t else []) := by
          rw [hr]
          exact mem_pyDedup.mp hs
        rcases List.mem_append.mp hmem with hm | hm
        · exact mem_structMatches hm
        · rcases fz with _ | _
          · simp at hm
          · exact mem_fuzzyMatches (by simpa using hm)
      · simp at h
  · rw [if_neg hb] at h
    exact absurd h (by simp)

theorem containsSub_of_prefix_map (p q : List Char) :
    ∀ (t : List Char), containsSub p t = true → q <+: p.map lowerChar →
      containsSub q (t.map lowerChar) = true := by
  intro t
  induction t with
  | nil =>
    intro h hq
    simp only [containsSub, List.isEmpty_iff] at h
    subst h
    simp only [List.map_nil] at hq
    have : q = [] := List.prefix_nil.mp hq
    subst this
    rfl
  | cons c rest ih =>
    intro h hq
    rcases Bool.or_eq_true _ _ |>.mp h with h1 | h1
    · have hpre : p <+: c :: rest := List.isPrefixOf_iff_prefix.mp h1
      have hpre2 : q <+: (c :: rest).map lowerChar := hq.trans (hpre.map lowerChar)
      have : q.isPrefixOf ((c :: rest).map lowerChar) = true :=
        List.isPrefixOf_iff_prefix.mpr hpre2
      simp only [List.map_cons] at this ⊢
      exact Bool.or_eq_true _ _ |>.mpr (Or.inl this)
    · have := ih h1 hq
      simp only [List.map_cons, containsSub]
      exact Bool.or_eq_true _ _ |>.mpr (Or.inr this)

theorem hasYtToken_eq_false {t : List Char}
    (h : containsSub (("youtu" : String)).data (t.map lowerChar) = false) :
    hasYtToken t = false := by
  unfold hasYtToken
  have h1 : containsSub (("youtube" : String)).data t = false := by
    by_contra hc
    rw [Bool.not_eq_false] at hc
    have := containsSub_of_prefix_map (("youtube" : String)).data (("youtu" : String)).data t hc
      ⟨(("be" : String)).data, by decide⟩
    rw [h] at this
    exact Bool.false_ne_true this
  have h2 : containsSub (("youtu.be" : String)).data t = false := by
    by_contra hc
    rw [Bool.not_eq_false] at hc
    have := containsSub_of_prefix_map (("youtu.be" : String)).data (("youtu" : String)).data t hc
      ⟨((".be" : String)).data, by decide⟩
    rw [h] at this
    exact Bool.false_ne_true this
  rw [h1, h2]
  rfl

theorem getYoutubeId_eq_of_results {t : List Char} {fz : Bool} {c : List Char}
    {rest : List (List Char)} (hyt : hasYtToken t = true)
    (hr : structMatches t ++ (if fz then fuzzyMatches t else []) = c :: rest) :
    getYoutubeId t true fz = PyResult.str c ∧
    getYoutubeId t false fz = PyResult.tup (pyDedup (c :: rest)) := by
  constructor
  · simp [getYoutubeId, hyt, hr]
  · simp [getYoutubeId, hyt, hr]

/-! Claims about the Pattern Resolver. -/

/-- C2 (counterexample): on the text `check this out abcdefghijk thanks` the
fast-reject guard fires (the text contains no `youtube` or `youtu.be`
substring), so `get_youtube_id` returns `None` even with fuzzy enabled,
refuting the claim that the fuzzy result is `abcdefghijk`. -/
theorem c2_cex :
    getYoutubeId (("check this out abcdefghijk thanks" : String)).data true true =
      PyResult.pynone ∧
    getYoutubeId (("check this out abcdefghijk thanks" : String)).data true true ≠
      PyResult.str (("abcdefghijk" : String)).data := by
  exact ⟨by decide, by decide⟩

/-- C2 (amended): the text `check this out abcdefghijk thanks` yields `None`
for both fuzzy settings because it contains no youtube-like token; prefixing
it with the token `youtube` makes fuzzy resolution return `abcdefghijk`,
while with fuzzy disabled it still returns `None`. -/
theorem c2_amended :
    getYoutubeId (("check this out abcdefghijk thanks" : String)).data true true =
      PyResult.pynone ∧
    getYoutubeId (("check this out abcdefghijk thanks" : String)).data true false =
      PyResult.pynone ∧
    getYoutubeId (("youtube check this out abcdefghijk thanks" : String)).data true true =
      PyResult.str (("abcdefghijk" : String)).data ∧
    getYoutubeId (("youtube check this out abcdefghijk thanks" : String)).data true false =
      PyResult.pynone := by
  exact ⟨by decide, by decide, by decide, by decide⟩

/-- C3: if the text contains no case-insensitive occurrence of `youtu`
(hence no substring matching the loose youtube-like token), then
`get_youtube_id` returns `None` for every setting of `first_match` and
`fuzzy`; by the definition of `getYoutubeId` the guard short-circuits before
the structural patterns and the fuzzy split are consulted. -/
theorem c3_fast_reject : ∀ (t : List Char),
    containsSub (("youtu" : String)).data (t.map lowerChar) = false →
    ∀ (fm fz : Bool), getYoutubeId t fm fz = PyResult.pynone := by
  intro t h fm fz
  simp [getYoutubeId, hasYtToken_eq_false h]

theorem c3_fast_reject_witness :
    containsSub (("youtu" : String)).data
      ((("hello world" : String)).data.map lowerChar) = false ∧
    getYoutubeId (("hello world" : String)).data true true = PyResult.pynone :=
  ⟨by decide, c3_fast_reject (("hello world" : String)).data (by decide) true true⟩

/-- C4 (counterexample): the text `?v=abcdefghijk` contains a recognized
`?v=` shape with a valid 11-character identifier, yet `get_youtube_id`
returns `None` in both modes because the text contains no youtube-like token;
and on a text with two short-link URLs, first-match mode returns the first
identifier, not the second one, although the second is also contained in a
recognized shape. -/
theorem c4_cex :
    ((("abcdefghijk" : String)).data ∈ structMatches (("?v=abcdefghijk" : String)).data ∧
      getYoutubeId (("?v=abcdefghijk" : String)).data true true = PyResult.pynone ∧
      getYoutubeId (("?v=abcdefghijk" : String)).data false true = PyResult.pynone) ∧
    ((("BBBBBBBBBBB" : String)).data ∈
        structMatches (("youtu.be/AAAAAAAAAAA youtu.be/BBBBBBBBBBB" : String)).data ∧
      getYoutubeId (("youtu.be/AAAAAAAAAAA youtu.be/BBBBBBBBBBB" : String)).data true true =
        PyResult.str (("AAAAAAAAAAA" : String)).data ∧
      (("AAAAAAAAAAA" : String)).data ≠ (("BBBBBBBBBBB" : String)).data) := by
  exact ⟨⟨by decide, by decide, by decide⟩, ⟨by decide, by decide, by decide⟩⟩

/-- C4 (amended): for every text that contains a youtube-like token and whose
structural patterns capture the identifier `v`, all-matches mode returns a
collection containing `v`, and first-match mode returns the first candidate
of the structural-then-fuzzy discovery order (which is `v` whenever `v` is
that first candidate). -/
theorem c4_amended : ∀ (t v : List Char) (fz : Bool),
    hasYtToken t = true → v ∈ structMatches t →
    (∃ ids, getYoutubeId t false fz = PyResult.tup ids ∧ v ∈ ids) ∧
    (∃ c rest, structMatches t ++ (if fz then fuzzyMatches t else []) = c :: rest ∧
      getYoutubeId t true fz = PyResult.str c) := by
  intro t v fz hyt hv
  have hvr : v ∈ structMatches t ++ (if fz then fuzzyMatches t else []) :=
    List.mem_append_left _ hv
  rcases hr : structMatches t ++ (if fz then fuzzyMatches t else []) with _ | ⟨c, rest⟩
  · rw [hr] at hvr
    simp at hvr
  · have heq := getYoutubeId_eq_of_results hyt hr
    constructor
    · refine ⟨pyDedup (c :: rest), heq.2, ?_⟩
      exact mem_pyDedup.mpr (hr ▸ hvr)
    · exact ⟨c, rest, rfl, heq.1⟩

theorem c4_amended_witness :
    (∃ ids, getYoutubeId (("youtu.be/abcdefghijk" : String)).data false true =
        PyResult.tup ids ∧ (("abcdefghijk" : String)).data ∈ ids) ∧
    (∃ c rest, structMatches (("youtu.be/abcdefghijk" : String)).data ++
        (if true then fuzzyMatches (("youtu.be/abcdefghijk" : String)).data else []) =
        c :: rest ∧
      getYoutubeId (("youtu.be/abcdefghijk" : String)).data true true = PyResult.str c) :=
  c4_amended (("youtu.be/abcdefghijk" : String)).data (("abcdefghijk" : String)).data true
    (by decide) (by decide)

/-- C5 (counterexample): a text containing both `?v=AAAAAAAAAAA` and
`&v=BBBBBBBBBBB` but no youtube-like token is rejected by the guard, so
first-match mode returns `None` rather than `AAAAAAAAAAA` and all-matches
mode returns `None` rather than the two-element set. -/
theorem c5_cex :
    getYoutubeId (("?v=AAAAAAAAAAA&v=BBBBBBBBBBB" : String)).data true true =
      PyResult.pynone ∧
    getYoutubeId (("?v=AAAAAAAAAAA&v=BBBBBBBBBBB" : String)).data false true =
      PyResult.pynone := by
  exact ⟨by decide, by decide⟩

/-- C5 (amended): on the token-carrying text
`youtube ?v=AAAAAAAAAAA &v=BBBBBBBBBBB`, first-match mode returns
`AAAAAAAAAAA` and all-matches mode returns a duplicate-free collection whose
elements are exactly `AAAAAAAAAAA` and `BBBBBBBBBBB`; in general, whenever
the youtube-like token is present and the candidate list of the
structural-then-fuzzy discovery order is non-empty, first-match mode returns
its first element and all-matches mode returns a duplicate-free collection
with exactly the candidates as elements. -/
theorem c5_amended :
    (getYoutubeId (("youtube ?v=AAAAAAAAAAA &v=BBBBBBBBBBB" : String)).data true true =
        PyResult.str (("AAAAAAAAAAA" : String)).data ∧
      ∃ ids, getYoutubeId (("youtube ?v=AAAAAAAAAAA &v=BBBBBBBBBBB" : String)).data false true =
          PyResult.tup ids ∧ ids.Nodup ∧
          ∀ x, x ∈ ids ↔
            (x = (("AAAAAAAAAAA" : String)).data ∨ x = (("BBBBBBBBBBB" : String)).data)) ∧
    (∀ (t : List Char) (fz : Bool) (c : List Char) (rest : List (List Char)),
      hasYtToken t = true →
      structMatches t ++ (if fz then fuzzyMatches t else []) = c :: rest →
      getYoutubeId t true fz = PyResult.str c ∧
      ∃ ids, getYoutubeId t false fz = PyResult.tup ids ∧ ids.Nodup ∧
        ∀ x, x ∈ ids ↔ x ∈ c :: rest) := by
  constructor
  · refine ⟨by decide, [(("AAAAAAAAAAA" : String)).data, (("BBBBBBBBBBB" : String)).data],
      by decide, by decide, ?_⟩
    intro x
    constructor
    · intro hx
      rcases List.mem_cons.mp hx with h | h
      · exact Or.inl h
      · exact Or.inr (by simpa using h)
    · rintro (rfl | rfl)
      · exact List.mem_cons_self _ _
      · exact List.mem_cons.mpr (Or.inr (List.mem_cons_self _ _))
  · intro t fz c rest hyt hr
    have heq := getYoutubeId_eq_of_results hyt hr
    refine ⟨heq.1, pyDedup (c :: rest), heq.2, nodup_pyDedup _, ?_⟩
    intro x
    exact mem_pyDedup

theorem c5_amended_witness :
    getYoutubeId (("youtu.be/abcdefghijk" : String)).data true false =
      PyResult.str (("abcdefghijk" : String)).data ∧
    ∃ ids, getYoutubeId (("youtu.be/abcdefghijk" : String)).data false false =
        PyResult.tup ids ∧ ids.Nodup ∧
        ∀ x, x ∈ ids ↔ x ∈ [(("abcdefghijk" : String)).data] :=
  c5_amended.2 (("youtu.be/abcdefghijk" : String)).data false
    (("abcdefghijk" : String)).data [] (by decide) (by decide)

/-!
Embedding of `handle_shazam` from `mail2mp3.py`.

JSON values decoded by `json.loads` are embedded as `JVal` (objects are
represented with their final, duplicate-free key list, as a decoded Python
dict).  An HTTP environment maps a URL to `none` when the GET call itself
raises, or to a status code together with the parse of the response text
(`none` for text that is not valid JSON, in which case `json.loads` raises).
Python operations that raise inside the big `try` block of the source are
modelled as `Option` failures that the embedding of the `except` arm turns
into the `None` return value; the hop-1 GET call sits outside that block, so
its failure is modelled as `Except.error`.
-/

inductive JVal where
  | null
  | bool (b : Bool)
  | num (n : Int)
  | str (s : List Char)
  | arr (elems : List JVal)
  | obj (fields : List (List Char × JVal))

/-- Association lookup in a decoded JSON object. -/
def lookupFields : List (List Char × JVal) → List Char → Option JVal
  | [], _ => none
  | (k, v) :: rest, key => if k = key then some v else lookupFields rest key

/-- Python subscription `value[key]` with a string key: succeeds only on a
dict containing the key; on every other decoded JSON value it raises
(`KeyError` or `TypeError`), which the embedding reports as `none`. -/
def pyLookup : JVal → List Char → Option JVal
  | JVal.obj fs, key => lookupFields fs key
  | _, _ => none

/-- Python iteration `for x in value` over a decoded JSON value: a list
yields its elements, a dict yields its keys, a string yields its characters
as one-character strings, and every other value raises `TypeError`
(reported as `none`). -/
def pyIter : JVal → Option (List JVal)
  | JVal.arr es => some es
  | JVal.obj fs => some (fs.map (fun p => JVal.str p.1))
  | JVal.str s => some (s.map (fun c => JVal.str [c]))
  | _ => none

/-- Python subscription `value[0]`: first element of a list, one-character
string of a string; raises on everything else (including an empty list,
`IndexError`), reported as `none`. -/
def pyIndex0 : JVal → Option JVal
  | JVal.arr (x :: _) => some x
  | JVal.str (c :: _) => some (JVal.str [c])
  | _ => none

/-- Python equality of a decoded JSON value against a string literal:
only a string can compare equal, any other value compares unequal without
raising. -/
def isStrVal (v : JVal) (s : List Char) : Bool :=
  match v with
  | JVal.str t => t == s
  | _ => false

/-- Python truthiness of a decoded JSON value. -/
def jTruthy : JVal → Bool
  | JVal.null => false
  | JVal.bool b => b
  | JVal.num n => n != 0
  | JVal.str s => !s.isEmpty
  | JVal.arr l => !l.isEmpty
  | JVal.obj fs => !fs.isEmpty

/-- Python truthiness of a variable that may hold `None`. -/
def jTruthyOpt : Option JVal → Bool
  | none => false
  | some j => jTruthy j

/-- An HTTP response: status code and the parse of the body text. -/
structure HttpResp where
  status : Nat
  jsonBody : Option JVal

/-- The network: `none` means the GET call raises. -/
def HttpEnv := List Char → Option HttpResp

/-- Maximal run of decimal digits at the head of the list (the greedy `\d+`). -/
def digitRun : List Char → List Char
  | [] => []
  | c :: rest => if c.isDigit then c :: digitRun rest else []

/-- Match of `shazam\.com\/track\/\d+#` anchored at the head of the list:
the greedy digit run must be non-empty and be followed by `#` (backtracking
cannot shorten the run because the character after a shorter run is a digit,
not `#`).  Returns the whole matched substring. -/
def trackMatchAt (l : List Char) : Option (List Char) :=
  if (("shazam.com/track/" : String)).data.isPrefixOf l then
    let rest := l.drop 17
    let ds := digitRun rest
    if ds.isEmpty then none
    else if (rest.drop ds.length).head? = some '#' then
      some ((("shazam.com/track/" : String)).data ++ ds ++ ['#'])
    else none
  else none

/-- Match of `shz\.am\/t\d+` anchored at the head of the list. -/
def shortMatchAt (l : List Char) : Option (List Char) :=
  if (("shz.am/t" : String)).data.isPrefixOf l then
    let ds := digitRun (l.drop 8)
    if ds.isEmpty then none else some ((("shz.am/t" : String)).data ++ ds)
  else none

/-- Leftmost match of an anchored matcher, scanning left to right; this is
`pattern.findall(text)[0]` for the patterns above. -/
def findFirstMatch (f : List Char → Option (List Char)) : List Char → Option (List Char)
  | [] => f []
  | c :: rest =>
    match f (c :: rest) with
    | some m => some m
    | none => findFirstMatch f rest

/-- The share-URL scan of `handle_shazam`: try the two `shazam_url_patterns`
in order and keep the first match of the first pattern that matches. -/
def findShazamUrl (mailBody : List Char) : Option (List Char) :=
  match findFirstMatch trackMatchAt mailBody with
  | some u => some u
  | none => findFirstMatch shortMatchAt mailBody

/-- `shazam_id_pattern.findall(url)[0]`: the first maximal digit run. -/
def firstDigitRun : List Char → Option (List Char)
  | [] => none
  | c :: rest => if c.isDigit then some (digitRun (c :: rest)) else firstDigitRun rest

/-- The fixed discovery endpoint `shazam_track_url` of the source. -/
def shazamTrackUrl : List Char :=
  (("https://www.shazam.com/discovery/v4/en-US/HU/web/-/track/" : String)).data

/-- The inner loop over `feed['actions']`: every action whose `type` equals
`youtubeplay` overwrites `url` with its `href` (the loop has no break).
A failing subscription raises, reported as `none`. -/
def actionScan : Option JVal → List JVal → Option (Option JVal)
  | url, [] => some url
  | url, a :: rest =>
    match pyLookup a (("type" : String)).data with
    | none => none
    | some tv =>
      if isStrVal tv (("youtubeplay" : String)).data then
        match pyLookup a (("href" : String)).data with
        | none => none
        | some h => actionScan (some h) rest
      else actionScan url rest

/-- The outer loop over `response['feed']`: every entry whose `id` equals
`generalvideos` runs the action scan on its `actions`, carrying the
accumulated `url` across entries (no break).  A failing subscription or a
non-iterable `actions` value raises, reported as `none`. -/
def feedScan : Option JVal → List JVal → Option (Option JVal)
  | url, [] => some url
  | url, f :: rest =>
    match pyLookup f (("id" : String)).data with
    | none => none
    | some iv =>
      if isStrVal iv (("generalvideos" : String)).data then
        match pyLookup f (("actions" : String)).data with
        | none => none
        | some av =>
          match pyIter av with
          | none => none
          | some acts =>
            match actionScan url acts with
            | none => none
            | some u2 => feedScan u2 rest
      else feedScan url rest

/-- The hop-2 section of `handle_shazam`: GET the url found by the feed
scan, require status 200, decode the JSON and extract
`response['youtube']['videos'][0]['id']`.  Every failure raises inside the
`try` block (or is an explicit `return None`), reported as `none`. -/
def hop2Fetch (env : HttpEnv) (u2 : List Char) : Option JVal :=
  match env u2 with
  | none => none
  | some r2 =>
    if r2.status ≠ 200 then none
    else
      match r2.jsonBody with
      | none => none
      | some j2 =>
        match pyLookup j2 (("youtube" : String)).data with
        | none => none
        | some jy =>
          match pyLookup jy (("videos" : String)).data with
          | none => none
          | some jvs =>
            match pyIndex0 jvs with
            | none => none
            | some v0 => pyLookup v0 (("id" : String)).data

/-- The body of the `try` block of `handle_shazam`, given the decoded hop-1
JSON: result `none` models both an exception caught by the `except` arm and
an explicit `return None`, since both make `handle_shazam` return `None`.
(When the scanned `url` is a truthy non-string JSON value, `requests.get`
raises a caught exception, hence the final `none` arm.) -/
def hsTry (env : HttpEnv) (j1 : JVal) : Option JVal :=
  match pyLookup j1 (("feed" : String)).data with
  | none => none
  | some fv =>
    match pyIter fv with
    | none => none
    | some feeds =>
      match feedScan none feeds with
      | none => none
      | some url =>
        if jTruthyOpt url = false then none
        else
          match url with
          | some (JVal.str u2) => hop2Fetch env u2
          | _ => none

/-- `handle_shazam(mail_body)` from `mail2mp3.py`, parameterised by the
network.  `Except.error ()` models an uncaught exception: the hop-1
`requests.get` call sits outside the `try` block. -/
def handleShazam (env : HttpEnv) (mailBody : List Char) : Except Unit (Option JVal) :=
  match findShazamUrl mailBody with
  | none => Except.ok none
  | some surl =>
    match firstDigitRun surl with
    | none => Except.ok none
    | some sid =>
      match env (shazamTrackUrl ++ sid) with
      | none => Except.error ()
      | some r1 =>
        if r1.status ≠ 200 then Except.ok none
        else
          match r1.jsonBody with
          | none => Except.ok none
          | some j1 => Except.ok (hsTry env j1)

/-! Claims about the resolution invariant and the Indirect Resolver. -/

/-- A hop-1 response whose `generalvideos` entry holds one `youtubeplay`
action pointing at `h2url`. -/
def cxFeedOne : JVal :=
  JVal.obj [((("feed" : String)).data, JVal.arr [
    JVal.obj [((("id" : String)).data, JVal.str (("generalvideos" : String)).data),
              ((("actions" : String)).data, JVal.arr [
                JVal.obj [((("type" : String)).data, JVal.str (("youtubeplay" : String)).data),
                          ((("href" : String)).data, JVal.str (("h2url" : String)).data)]])]])]

/-- A hop-2 response `{"youtube": {"videos": [{"id": s}]}}`. -/
def cxHop2 (s : List Char) : JVal :=
  JVal.obj [((("youtube" : String)).data, JVal.obj [
    ((("videos" : String)).data, JVal.arr [
      JVal.obj [((("id" : String)).data, JVal.str s)]])])]

/-- A network on which both hops succeed and hop 2 serves the one-character
identifier `x`. -/
def cxEnvShortId : HttpEnv := fun u =>
  if u = shazamTrackUrl ++ (("123" : String)).data then some ⟨200, some cxFeedOne⟩
  else if u = (("h2url" : String)).data then some ⟨200, some (cxHop2 (("x" : String)).data)⟩
  else none

/-- C1 (counterexample): `handle_shazam` returns the hop-2 identifier string
without any length or alphabet validation, so a compliant two-hop exchange
whose final JSON carries the id `x` makes the Indirect Resolver return a
1-character identifier, violating the claimed 11-character invariant. -/
theorem c1_cex :
    handleShazam cxEnvShortId (("shz.am/t123" : String)).data =
      Except.ok (some (JVal.str (("x" : String)).data)) ∧
    (("x" : String)).data.length = 1 :=
  ⟨rfl, by decide⟩

/-- C1 (amended): every identifier produced by the Pattern Resolver
(`get_youtube_id`), whether as a first-match string or as a member of the
all-matches collection, is exactly 11 characters long and contains none of
`#`, `&`, `?`; the Indirect Resolver (`handle_shazam`) does not enforce this
invariant. -/
theorem c1_amended : ∀ (t : List Char) (fm fz : Bool),
    (∀ s, getYoutubeId t fm fz = PyResult.str s →
      s.length = 11 ∧ s.all idChar = true) ∧
    (∀ ids s, getYoutubeId t fm fz = PyResult.tup ids → s ∈ ids →
      s.length = 11 ∧ s.all idChar = true) :=
  fun _ _ _ =>
    ⟨fun _ h => getYoutubeId_str_inv h, fun _ _ h hs => getYoutubeId_tup_inv h hs⟩

theorem c1_amended_witness :
    (("abcdefghijk" : String)).data.length = 11 ∧
    (("abcdefghijk" : String)).data.all idChar = true :=
  (c1_amended (("youtu.be/abcdefghijk" : String)).data true true).1
    (("abcdefghijk" : String)).data (by decide)

/-- The `href` of an action when its `type` is `youtubeplay`. -/
def ypHref (a : JVal) : Option JVal :=
  match pyLookup a (("type" : String)).data with
  | some tv =>
    if isStrVal tv (("youtubeplay" : String)).data then
      pyLookup a (("href" : String)).data
    else none
  | none => none

/-- Last element of a list, as an option. -/
def lastOpt {α : Type} : List α → Option α
  | [] => none
  | x :: rest =>
    match lastOpt rest with
    | some y => some y
    | none => some x

/-- An action `{"type": "youtubeplay", "href": u}`. -/
def cxAct (u : List Char) : JVal :=
  JVal.obj [((("type" : String)).data, JVal.str (("youtubeplay" : String)).data),
            ((("href" : String)).data, JVal.str u)]

/-- A hop-1 response whose `generalvideos` entry holds two `youtubeplay`
actions, pointing at `u1` and `u2` in this order. -/
def cxFeedTwo : JVal :=
  JVal.obj [((("feed" : String)).data, JVal.arr [
    JVal.obj [((("id" : String)).data, JVal.str (("generalvideos" : String)).data),
              ((("actions" : String)).data,
                JVal.arr [cxAct (("u1" : String)).data, cxAct (("u2" : String)).data])]])]

/-- A network for the two-action feed: following `u1` yields the identifier
`11111111111` and following `u2` yields `22222222222`. -/
def cxEnvTwo : HttpEnv := fun u =>
  if u = shazamTrackUrl ++ (("7" : String)).data then some ⟨200, some cxFeedTwo⟩
  else if u = (("u1" : String)).data then
    some ⟨200, some (cxHop2 (("11111111111" : String)).data)⟩
  else if u = (("u2" : String)).data then
    some ⟨200, some (cxHop2 (("22222222222" : String)).data)⟩
  else none

/-- C7 (counterexample): with two `youtubeplay` actions in the
`generalvideos` entry, `handle_shazam` follows the href of the second (last)
action, not of the first: the returned identifier is the one served behind
`u2`, not the one behind `u1`. -/
theorem c7_cex :
    handleShazam cxEnvTwo (("shz.am/t7" : String)).data =
      Except.ok (some (JVal.str (("22222222222" : String)).data)) ∧
    (("22222222222" : String)).data ≠ (("11111111111" : String)).data :=
  ⟨rfl, by decide⟩

/-- C7 (amended): the loop over the actions of a feed entry has no break, so
each `youtubeplay` action overwrites `url`; when every action carries a
`type` field and every `youtubeplay` action carries an `href`, the scan ends
with the href of the LAST `youtubeplay` action (keeping the incoming value
when there is none). -/
theorem c7_amended : ∀ (acts : List JVal) (url : Option JVal),
    (∀ a ∈ acts, ∃ tv, pyLookup a (("type" : String)).data = some tv ∧
      (isStrVal tv (("youtubeplay" : String)).data = true →
        (pyLookup a (("href" : String)).data).isSome = true)) →
    actionScan url acts = some
      (match lastOpt (acts.filterMap ypHref) with
       | some h => some h
       | none => url) := by
  intro acts
  induction acts with
  | nil => intro url _; rfl
  | cons a rest ih =>
    intro url hwf
    rcases hwf a (List.mem_cons_self _ _) with ⟨tv, htv, himp⟩
    have hrest := fun b hb => hwf b (List.mem_cons_of_mem _ hb)
    by_cases hyp : isStrVal tv (("youtubeplay" : String)).data = true
    · rcases Option.isSome_iff_exists.mp (himp hyp) with ⟨hv, hh⟩
      have hyph : ypHref a = some hv := by
        simp [ypHref, htv, hyp, hh]
      have hscan : actionScan url (a :: rest) = actionScan (some hv) rest := by
        simp [actionScan, htv, hyp, hh]
      rw [hscan, ih (some hv) hrest]
      simp only [List.filterMap_cons, hyph]
      cases hlast : lastOpt (rest.filterMap ypHref) with
      | none => simp [lastOpt, hlast]
      | some y => simp [lastOpt, hlast]
    · have hyph : ypHref a = none := by
        simp [ypHref, htv, hyp]
      have hscan : actionScan url (a :: rest) = actionScan url rest := by
        simp [actionScan, htv, hyp]
      rw [hscan, ih url hrest]
      simp only [List.filterMap_cons, hyph]

theorem c7_amended_witness :
    actionScan none [cxAct (("u1" : String)).data, cxAct (("u2" : String)).data] =
      some (some (JVal.str (("u2" : String)).data)) :=
  Eq.trans
    (c7_amended [cxAct (("u1" : String)).data, cxAct (("u2" : String)).data] none
      (by
        intro a ha
        rcases List.mem_cons.mp ha with rfl | ha2
        · exact ⟨JVal.str (("youtubeplay" : String)).data, rfl, fun _ => rfl⟩
        rcases List.mem_cons.mp ha2 with rfl | ha3
        · exact ⟨JVal.str (("youtubeplay" : String)).data, rfl, fun _ => rfl⟩
        · simp at ha3))
    rfl

/-! Helper lemmas for the failure behaviour of `handle_shazam`. -/

theorem handleShazam_hop1_ok {env : HttpEnv} {body surl sid : List Char}
    {r1 : HttpResp} {j1 : JVal}
    (h1 : findShazamUrl body = some surl) (h2 : firstDigitRun surl = some sid)
    (h3 : env (shazamTrackUrl ++ sid) = some r1) (h4 : r1.status = 200)
    (h5 : r1.jsonBody = some j1) :
    handleShazam env body = Except.ok (hsTry env j1) := by
  simp [handleShazam, h1, h2, h3, h4, h5]

theorem actionScan_no_yp : ∀ (acts : List JVal) (url : Option JVal),
    (∀ a ∈ acts, ∃ tv, pyLookup a (("type" : String)).data = some tv ∧
      isStrVal tv (("youtubeplay" : String)).data = false) →
    actionScan url acts = some url := by
  intro acts
  induction acts with
  | nil => intro url _; rfl
  | cons a rest ih =>
    intro url hwf
    rcases hwf a (List.mem_cons_self _ _) with ⟨tv, htv, hf⟩
    have hstep : actionScan url (a :: rest) = actionScan url rest := by
      simp [actionScan, htv, hf]
    rw [hstep]
    exact ih url (fun b hb => hwf b (List.mem_cons_of_mem _ hb))

/-- A well-formedness condition on the hop-1 feed entries under which the
feed scan completes without finding any url: every entry has an `id`, and
every `generalvideos` entry has iterable `actions` all of whose actions have
a non-`youtubeplay` `type`. -/
def FeedNoYp (feeds : List JVal) : Prop :=
  ∀ f ∈ feeds, ∃ iv, pyLookup f (("id" : String)).data = some iv ∧
    (isStrVal iv (("generalvideos" : String)).data = true →
      ∃ av acts, pyLookup f (("actions" : String)).data = some av ∧
        pyIter av = some acts ∧
        ∀ a ∈ acts, ∃ tv, pyLookup a (("type" : String)).data = some tv ∧
          isStrVal tv (("youtubeplay" : String)).data = false)

theorem feedScan_no_url : ∀ (feeds : List JVal) (url : Option JVal),
    FeedNoYp feeds → feedScan url feeds = some url := by
  intro feeds
  induction feeds with
  | nil => intro url _; rfl
  | cons f rest ih =>
    intro url hwf
    rcases hwf f (List.mem_cons_self _ _) with ⟨iv, hiv, himp⟩
    have hrest : FeedNoYp rest := fun g hg => hwf g (List.mem_cons_of_mem _ hg)
    by_cases hgv : isStrVal iv (("generalvideos" : String)).data = true
    · rcases himp hgv with ⟨av, acts, hav, hacts, hno⟩
      have hstep : feedScan url (f :: rest) = feedScan url rest := by
        simp [feedScan, hiv, hgv, hav, hacts, actionScan_no_yp acts url hno]
      rw [hstep]
      exact ih url hrest
    · have hstep : feedScan url (f :: rest) = feedScan url rest := by
        simp [feedScan, hiv, hgv]
      rw [hstep]
      exact ih url hrest

theorem hsTry_of_no_url {env : HttpEnv} {j1 fv : JVal} {feeds : List JVal}
    (hf : pyLookup j1 (("feed" : String)).data = some fv)
    (hit : pyIter fv = some feeds)
    (hscan : feedScan none feeds = some none) :
    hsTry env j1 = none := by
  simp [hsTry, hf, hit, hscan, jTruthyOpt]

theorem hsTry_of_hop2 {env : HttpEnv} {j1 fv : JVal} {feeds : List JVal} {u2 : List Char}
    (hf : pyLookup j1 (("feed" : String)).data = some fv)
    (hit : pyIter fv = some feeds)
    (hscan : feedScan none feeds = some (some (JVal.str u2)))
    (hne : u2 ≠ []) :
    hsTry env j1 = hop2Fetch env u2 := by
  simp [hsTry, hf, hit, hscan, jTruthyOpt, jTruthy, hne]

/-- C8: `handle_shazam` returns `None` and does not raise in every listed
failure scenario: a non-200 status at hop 1; malformed hop-1 JSON; a feed
with no `generalvideos` entry; `generalvideos` entries with no `youtubeplay`
action; and, once a hop-2 url has been found, any hop-2 failure
(`hop2Fetch env u2 = none`), in particular a non-200 status at hop 2,
malformed hop-2 JSON, a missing `youtube` or `videos` key, and an empty
`videos` array. -/
theorem c8_degrades_to_none :
    (∀ (env : HttpEnv) (body surl sid : List Char) (r1 : HttpResp),
      findShazamUrl body = some surl → firstDigitRun surl = some sid →
      env (shazamTrackUrl ++ sid) = some r1 → r1.status ≠ 200 →
      handleShazam env body = Except.ok none) ∧
    (∀ (env : HttpEnv) (body surl sid : List Char) (r1 : HttpResp),
      findShazamUrl body = some surl → firstDigitRun surl = some sid →
      env (shazamTrackUrl ++ sid) = some r1 → r1.status = 200 → r1.jsonBody = none →
      handleShazam env body = Except.ok none) ∧
    (∀ (env : HttpEnv) (body surl sid : List Char) (r1 : HttpResp) (j1 fv : JVal)
        (feeds : List JVal),
      findShazamUrl body = some surl → firstDigitRun surl = some sid →
      env (shazamTrackUrl ++ sid) = some r1 → r1.status = 200 → r1.jsonBody = some j1 →
      pyLookup j1 (("feed" : String)).data = some fv → pyIter fv = some feeds →
      (∀ f ∈ feeds, ∃ iv, pyLookup f (("id" : String)).data = some iv ∧
        isStrVal iv (("generalvideos" : String)).data = false) →
      handleShazam env body = Except.ok none) ∧
    (∀ (env : HttpEnv) (body surl sid : List Char) (r1 : HttpResp) (j1 fv : JVal)
        (feeds : List JVal),
      findShazamUrl body = some surl → firstDigitRun surl = some sid →
      env (shazamTrackUrl ++ sid) = some r1 → r1.status = 200 → r1.jsonBody = some j1 →
      pyLookup j1 (("feed" : String)).data = some fv → pyIter fv = some feeds →
      FeedNoYp feeds →
      handleShazam env body = Except.ok none) ∧
    (∀ (env : HttpEnv) (body surl sid u2 : List Char) (r1 : HttpResp) (j1 fv : JVal)
        (feeds : List JVal),
      findShazamUrl body = some surl → firstDigitRun surl = some sid →
      env (shazamTrackUrl ++ sid) = some r1 → r1.status = 200 → r1.jsonBody = some j1 →
      pyLookup j1 (("feed" : String)).data = some fv → pyIter fv = some feeds →
      feedScan none feeds = some (some (JVal.str u2)) → u2 ≠ [] →
      hop2Fetch env u2 = none →
      handleShazam env body = Except.ok none) ∧
    (∀ (env : HttpEnv) (u2 : List Char) (r2 : HttpResp),
      env u2 = some r2 → r2.status ≠ 200 → hop2Fetch env u2 = none) ∧
    (∀ (env : HttpEnv) (u2 : List Char) (r2 : HttpResp),
      env u2 = some r2 → r2.status = 200 → r2.jsonBody = none →
      hop2Fetch env u2 = none) ∧
    (∀ (env : HttpEnv) (u2 : List Char) (r2 : HttpResp) (j2 : JVal),
      env u2 = some r2 → r2.status = 200 → r2.jsonBody = some j2 →
      pyLookup j2 (("youtube" : String)).data = none →
      hop2Fetch env u2 = none) ∧
    (∀ (env : HttpEnv) (u2 : List Char) (r2 : HttpResp) (j2 jy : JVal),
      env u2 = some r2 → r2.status = 200 → r2.jsonBody = some j2 →
      pyLookup j2 (("youtube" : String)).data = some jy →
      pyLookup jy (("videos" : String)).data = none →
      hop2Fetch env u2 = none) ∧
    (∀ (env : HttpEnv) (u2 : List Char) (r2 : HttpResp) (j2 jy : JVal),
      env u2 = some r2 → r2.status = 200 → r2.jsonBody = some j2 →
      pyLookup j2 (("youtube" : String)).data = some jy →
      pyLookup jy (("videos" : String)).data = some (JVal.arr []) →
      hop2Fetch env u2 = none) := by
  refine ⟨?_, ?_, ?_, ?_, ?_, ?_, ?_, ?_, ?_, ?_⟩
  · intro env body surl sid r1 h1 h2 h3 h4
    simp [handleShazam, h1, h2, h3, h4]
  · intro env body surl sid r1 h1 h2 h3 h4 h5
    simp [handleShazam, h1, h2, h3, h4, h5]
  · intro env body surl sid r1 j1 fv feeds h1 h2 h3 h4 h5 hf hit hno
    have hwf : FeedNoYp feeds := by
      intro f hfm
      rcases hno f hfm with ⟨iv, hiv, hfalse⟩
      refine ⟨iv, hiv, fun hcontra => ?_⟩
      rw [hfalse] at hcontra
      exact absurd hcontra (by simp)
    rw [handleShazam_hop1_ok h1 h2 h3 h4 h5,
      hsTry_of_no_url hf hit (feedScan_no_url feeds none hwf)]
  · intro env body surl sid r1 j1 fv feeds h1 h2 h3 h4 h5 hf hit hwf
    rw [handleShazam_hop1_ok h1 h2 h3 h4 h5,
      hsTry_of_no_url hf hit (feedScan_no_url feeds none hwf)]
  · intro env body surl sid u2 r1 j1 fv feeds h1 h2 h3 h4 h5 hf hit hscan hne hfetch
    rw [handleShazam_hop1_ok h1 h2 h3 h4 h5, hsTry_of_hop2 hf hit hscan hne, hfetch]
  · intro env u2 r2 h1 h2
    simp [hop2Fetch, h1, h2]
  · intro env u2 r2 h1 h2 h3
    simp [hop2Fetch, h1, h2, h3]
  · intro env u2 r2 j2 h1 h2 h3 h4
    simp [hop2Fetch, h1, h2, h3, h4]
  · intro env u2 r2 j2 jy h1 h2 h3 h4 h5
    simp [hop2Fetch, h1, h2, h3, h4, h5]
  · intro env u2 r2 j2 jy h1 h2 h3 h4 h5
    simp [hop2Fetch, h1, h2, h3, h4, h5, pyIndex0]

theorem c8_degrades_to_none_witness :
    handleShazam (fun _ => some ⟨404, none⟩) (("shz.am/t123" : String)).data =
      Except.ok none :=
  c8_degrades_to_none.1 (fun _ => some ⟨404, none⟩) (("shz.am/t123" : String)).data
    (("shz.am/t123" : String)).data (("123" : String)).data ⟨404, none⟩
    rfl rfl rfl (by decide)

/-!
Embedding of the resolution steps and the worker loop body of
`process_mail` from `mail2mp3.py`.

A dequeued mail is the dict built by `get_mail`: a sender string, a subject
that may be `None` (a missing `Subject` header), and a body string.  The
resolution engine tries `get_youtube_id` on the subject, then on the body,
then `handle_shazam` on the body, with the Python truthiness checks of the
source; the value bound to `youtube_id` is a Python string from
`get_youtube_id` or an arbitrary decoded JSON value from `handle_shazam`,
both embedded into `Option JVal`.
-/

/-- The value bound to `youtube_id` by an assignment from `get_youtube_id`:
a string stays a string, a tuple becomes a decoded-list value, `None` stays
`None`.  (With the default arguments used by `process_mail` the tuple case
cannot arise, but the embedding keeps it.) -/
def pyResVal : PyResult → Option JVal
  | PyResult.str s => some (JVal.str s)
  | PyResult.tup ls => some (JVal.arr (ls.map JVal.str))
  | PyResult.pynone => none

/-- The resolution steps of `process_mail` (lines building `youtube_id` and
`share_source`): subject first, body only when the subject yielded nothing
truthy, `handle_shazam` only when both yielded nothing truthy.  The string
component is `share_source`.  An uncaught exception of `handle_shazam`
propagates. -/
def processResolve (env : HttpEnv) (subject : Option (List Char)) (body : List Char) :
    Except Unit (Option JVal × List Char) :=
  let y1 : Option JVal :=
    match subject with
    | some s => if s.isEmpty then none else pyResVal (getYoutubeId s true true)
    | none => none
  let y2 : Option JVal :=
    if jTruthyOpt y1 = false ∧ body.isEmpty = false then
      pyResVal (getYoutubeId body true true)
    else y1
  if jTruthyOpt y2 = false then
    match handleShazam env body with
    | Except.error e => Except.error e
    | Except.ok ys => Except.ok (ys, (("shazam" : String)).data)
  else
    Except.ok (y2, (("youtube" : String)).data)

/-- Outcome of one iteration of the worker loop of `process_mail`. -/
inductive LoopOutcome where
  | nextIter
  | ret
  | raised
deriving DecidableEq

/-- A dequeued mail dict. -/
structure QMail where
  sender : List Char
  subject : Option (List Char)
  body : List Char

/-- The body of the `while True` loop of `process_mail`: resolve the mail;
with no identifier, print and `return` (ending the worker); with a failed
output-directory creation (`dirOk = false`), print and `return`; otherwise
download and reach the end of the loop body (next iteration). -/
def processMailBody (env : HttpEnv) (dirOk : Bool) (mail : QMail) : LoopOutcome :=
  match processResolve env mail.subject mail.body with
  | Except.error _ => LoopOutcome.raised
  | Except.ok (yid, _src) =>
    if jTruthyOpt yid = false then LoopOutcome.ret
    else if dirOk = false then LoopOutcome.ret
    else LoopOutcome.nextIter

theorem getYoutubeId_nil (fm fz : Bool) : getYoutubeId [] fm fz = PyResult.pynone := rfl

theorem jTruthy_of_str {t s : List Char} {fm fz : Bool}
    (h : getYoutubeId t fm fz = PyResult.str s) : jTruthy (JVal.str s) = true := by
  have hlen := (getYoutubeId_str_inv h).1
  have hne : s ≠ [] := by
    intro hnil
    subst hnil
    simp at hlen
  simp [jTruthy, hne]

/-- C6: in the resolution steps of `process_mail`, the subject wins whenever
it resolves (the body and the network are then never consulted); the body is
used exactly when the subject yields nothing (it is `None`, empty, or
unresolvable); and `handle_shazam` is invoked exactly when both subject and
body yield nothing. -/
theorem c6_precedence :
    (∀ (env : HttpEnv) (subject body a b : List Char),
      getYoutubeId subject true true = PyResult.str a →
      getYoutubeId body true true = PyResult.str b → a ≠ b →
      processResolve env (some subject) body =
        Except.ok (some (JVal.str a), (("youtube" : String)).data)) ∧
    (∀ (env : HttpEnv) (subject : Option (List Char)) (body b : List Char),
      (subject = none ∨ subject = some [] ∨
        (∃ s, subject = some s ∧ getYoutubeId s true true = PyResult.pynone)) →
      getYoutubeId body true true = PyResult.str b →
      processResolve env subject body =
        Except.ok (some (JVal.str b), (("youtube" : String)).data)) ∧
    (∀ (env : HttpEnv) (subject : Option (List Char)) (body : List Char),
      (subject = none ∨ subject = some [] ∨
        (∃ s, subject = some s ∧ getYoutubeId s true true = PyResult.pynone)) →
      (body = [] ∨ getYoutubeId body true true = PyResult.pynone) →
      processResolve env subject body =
        (match handleShazam env body with
         | Except.error e => Except.error e
         | Except.ok ys => Except.ok (ys, (("shazam" : String)).data))) := by
  refine ⟨?_, ?_, ?_⟩
  · intro env subject body a b ha _hb _hab
    have hsne : subject.isEmpty = false := by
      cases subject with
      | nil => rw [getYoutubeId_nil] at ha; cases ha
      | cons c cs => rfl
    have htrue := jTruthy_of_str ha
    simp [processResolve, hsne, ha, pyResVal, jTruthyOpt, htrue]
  · intro env subject body b hsub hb
    have hbne : body ≠ [] := by
      intro h
      subst h
      rw [getYoutubeId_nil] at hb
      cases hb
    have htrue := jTruthy_of_str hb
    rcases hsub with rfl | rfl | ⟨s, rfl, hs⟩
    · simp [processResolve, jTruthyOpt, hb, pyResVal, htrue, hbne]
    · simp [processResolve, jTruthyOpt, hb, pyResVal, htrue, hbne]
    · simp [processResolve, jTruthyOpt, hb, hs, pyResVal, htrue, hbne]
  · intro env subject body hsub hbody
    rcases hsub with rfl | rfl | ⟨s, rfl, hs⟩
    · rcases hbody with rfl | hbn
      · simp [processResolve, jTruthyOpt]
      · simp [processResolve, jTruthyOpt, hbn, pyResVal]
    · rcases hbody with rfl | hbn
      · simp [processResolve, jTruthyOpt]
      · simp [processResolve, jTruthyOpt, hbn, pyResVal]
    · rcases hbody with rfl | hbn
      · simp [processResolve, jTruthyOpt, hs, pyResVal]
      · simp [processResolve, jTruthyOpt, hs, hbn, pyResVal]

theorem c6_precedence_witness :
    processResolve (fun _ => none) (some (("youtu.be/abcdefghijk" : String)).data)
      (("youtu.be/AAAAAAAAAAA" : String)).data =
      Except.ok (some (JVal.str (("abcdefghijk" : String)).data),
        (("youtube" : String)).data) :=
  c6_precedence.1 (fun _ => none) (("youtu.be/abcdefghijk" : String)).data
    (("youtu.be/AAAAAAAAAAA" : String)).data (("abcdefghijk" : String)).data
    (("AAAAAAAAAAA" : String)).data (by decide) (by decide) (by decide)

/-- C9: the worker does NOT continue its loop on a resolution failure: on a
mail whose subject and body resolve to nothing (here `hello`, with no
youtube-like token and no shazam link), the loop body of `process_mail`
executes `return`, terminating the worker, instead of moving on to the next
job as the claim and the docstring (`process it forever`) state. -/
theorem c9_worker_returns :
    processMailBody (fun _ => none) true
      ⟨(("a@b.c" : String)).data, some (("hello" : String)).data,
        (("hello" : String)).data⟩ = LoopOutcome.ret := rfl

/-!
Embedding of `get_mail` from `mail2mp3.py`.

The fetched message is embedded as `PyMsg`: the `Return-Path` header (absent
headers subscript to `None`), the `Subject` header, and the payload, which
`get_payload()` returns either as a single string (non-multipart) or as a
list of parts.  The whole body of `get_mail` runs inside a bare
`try ... except: return None`, so every raising step is modelled as an
`Option` failure collapsing to `none`.

The `from` field is the first match of `\w[\w\.]*@[\w\.]+\.\w+` in the
`Return-Path` header; the matcher below implements the greedy backtracking
search of this concrete pattern over ASCII word characters.
-/

/-- Python `\w` over ASCII. -/
def isWordChar (c : Char) : Bool :=
  c.isAlphanum || c == '_'

/-- Membership of the class `[\w\.]`. -/
def isWordDot (c : Char) : Bool :=
  isWordChar c || c == '.'

/-- Length of the maximal run of class characters at the head of the list. -/
def runLen (p : Char → Bool) : List Char → Nat
  | [] => 0
  | c :: rest => if p c then runLen p rest + 1 else 0

/-- Match of the tail `[\w\.]+\.\w+` of the email pattern at the head of
`l`, trying the greedy lengths `j, j-1, ..., 1` for `[\w\.]+` (the caller
starts `j` at the maximal `[\w\.]` run, so every tried prefix lies inside
the run); returns the total consumed length. -/
def emailTailAux (l : List Char) : Nat → Option Nat
  | 0 => none
  | j + 1 =>
    match l.drop (j + 1) with
    | c :: rest =>
      if c = '.' ∧ 0 < runLen isWordChar rest then
        some ((j + 1) + 1 + runLen isWordChar rest)
      else emailTailAux l j
    | [] => emailTailAux l j

/-- `[\w\.]+\.\w+` anchored at the head of `l`. -/
def emailTail (l : List Char) : Option Nat :=
  emailTailAux l (runLen isWordDot l)

/-- One backtracking attempt of `[\w\.]*@[\w\.]+\.\w+` at offset `k` of `l`:
`[\w\.]*` consumes `k` characters, then `@`, then the tail pattern. -/
def emailAtOne (l : List Char) (k : Nat) : Option Nat :=
  match l.drop k with
  | c :: rest =>
    if c = '@' then (emailTail rest).map (fun t => k + 1 + t) else none
  | [] => none

/-- Greedy backtracking over the length of `[\w\.]*`: try `k, k-1, ..., 0`. -/
def emailAtAux (l : List Char) : Nat → Option Nat
  | 0 => emailAtOne l 0
  | k + 1 =>
    match emailAtOne l (k + 1) with
    | some n => some n
    | none => emailAtAux l k

/-- Match of `\w[\w\.]*@[\w\.]+\.\w+` anchored at the head of the list,
returning the length of the (leftmost-greedy) match. -/
def emailAt : List Char → Option Nat
  | [] => none
  | c :: rest =>
    if isWordChar c then
      (emailAtAux rest (runLen isWordDot rest)).map (fun n => 1 + n)
    else none

/-- `email_address_pattern.findall(header)[0]`: the leftmost match of the
email pattern, scanning left to right. -/
def emailFirst : List Char → Option (List Char)
  | [] => none
  | c :: rest =>
    match emailAt (c :: rest) with
    | some n => some ((c :: rest).take n)
    | none => emailFirst rest

/-- The payload of a fetched message: `get_payload()` yields a string for a
non-multipart message and a list of parts for a multipart one. -/
inductive PyPayload where
  | pstr (s : List Char)
  | pparts (ps : List PyPayload)

/-- A fetched message: `Return-Path` header, `Subject` header, payload. -/
structure PyMsg where
  returnPath : Option (List Char)
  subj : Option (List Char)
  payload : PyPayload

/-- The dict built by `get_mail`. -/
structure ParsedMail where
  sender : List Char
  subj : Option (List Char)
  body : List Char
deriving DecidableEq

/-- The loop `for part in ...: parsed_mail['body'] += part.get_payload() + '\n'`
over a list of parts: a part that is itself multipart makes the string
concatenation raise (`str + list`), reported as `none`. -/
def buildBody : List PyPayload → Option (List Char)
  | [] => some []
  | PyPayload.pstr s :: rest => (buildBody rest).map (fun b => s ++ '\n' :: b)
  | PyPayload.pparts _ :: _ => none

/-- `get_mail` from `mail2mp3.py`, given the fetch return code and the
fetched message.  For a non-multipart message the loop iterates over the
characters of the payload string; on the first character, `get_payload()`
raises `AttributeError` (a one-character string has no such method), which
the bare `except` turns into `None` — unless the string is empty, in which
case the loop body never runs and the mail is returned with an empty body. -/
def getMail (fetchOk : Bool) (msg : PyMsg) : Option ParsedMail :=
  if fetchOk = false then none
  else
    match msg.returnPath with
    | none => none
    | some rp =>
      match emailFirst rp with
      | none => none
      | some addr =>
        match msg.payload with
        | PyPayload.pstr [] => some ⟨addr, msg.subj, []⟩
        | PyPayload.pstr (_ :: _) => none
        | PyPayload.pparts ps =>
          match buildBody ps with
          | some b => some ⟨addr, msg.subj, b⟩
          | none => none

/-- C10 (counterexample): a non-multipart message whose payload is the EMPTY
string is parsed successfully: the character loop never runs, so `get_mail`
returns the parsed mail with an empty body instead of `None`, refuting the
universally quantified claim. -/
theorem c10_cex :
    getMail true ⟨some (("<a@b.c>" : String)).data, some (("s" : String)).data,
      PyPayload.pstr []⟩ =
      some ⟨(("a@b.c" : String)).data, some (("s" : String)).data, []⟩ ∧
    getMail true ⟨some (("<a@b.c>" : String)).data, some (("s" : String)).data,
      PyPayload.pstr []⟩ ≠ none :=
  ⟨rfl, by
    intro h
    rw [show getMail true ⟨some (("<a@b.c>" : String)).data, some (("s" : String)).data,
      PyPayload.pstr []⟩ = some ⟨(("a@b.c" : String)).data, some (("s" : String)).data, []⟩
      from rfl] at h
    cases h⟩

/-- C10 (amended): for every fetched message whose payload is a NON-EMPTY
single string (non-multipart), `get_mail` returns `None` — iterating the
string and calling `get_payload` on its first character raises, and the
enclosing broad `except` converts this to `None` — so such messages are
never enqueued; a non-multipart message with an empty payload string is
instead returned with an empty body. -/
theorem c10_single_part_none : ∀ (fetchOk : Bool) (msg : PyMsg) (c : Char) (s : List Char),
    msg.payload = PyPayload.pstr (c :: s) → getMail fetchOk msg = none := by
  intro ok msg c s hp
  cases ok with
  | false => simp [getMail]
  | true =>
    cases hrp : msg.returnPath with
    | none => simp [getMail, hrp]
    | some rp =>
      cases hem : emailFirst rp with
      | none => simp [getMail, hrp, hem]
      | some addr => simp [getMail, hrp, hem, hp]

theorem c10_single_part_none_witness :
    getMail true ⟨some (("<a@b.c>" : String)).data, none,
      PyPayload.pstr (("hi" : String)).data⟩ = none :=
  c10_single_part_none true
    ⟨some (("<a@b.c>" : String)).data, none, PyPayload.pstr (("hi" : String)).data⟩
    'h' (("i" : String)).data rfl
